import Mathlib

/-!
# Hydro `handler/misc.ts` — file storage handlers, verified embedding

A shallow embedding of `src/packages/hydrooj/src/handler/misc.ts`:
the quota-enforced upload/delete workflow (`FilesHandler`), the
download authorizer (`FSDownloadHandler`) and the signed-link endpoint
(`StorageHandler`), with theorems about the properties the spec states.

External collaborators (the storage engine, the identity store, the MD5
hash from `../utils`, configuration values) are passed as explicit
parameters, so every handler becomes a pure function from its inputs to
an `Except`-style outcome: `.error e` models a thrown error (the request
aborts, no ledger write happens), `.ok v` models the successful path,
carrying the value the handler would persist or serve.
-/

namespace Hydro

/-- The error classes thrown by the handlers.  `PermissionError` models the
framework's `checkPriv` failure; `ForbiddenError`, `ValidationError`,
`BadRequestError` and `NotFoundError` come from `../error`; `GenericError`
models a plain JavaScript `new Error(msg)`; `TypeError` models the JS
runtime error raised when `this.user._files` is accessed unguarded while
absent (`undefined`). -/
inductive HydroError where
  | PermissionError : HydroError
  | ForbiddenError : String → HydroError
  | ValidationError : String → String → HydroError
  | BadRequestError : String → HydroError
  | NotFoundError : Nat → HydroError
  | GenericError : String → HydroError
  | TypeError : HydroError
deriving DecidableEq, Repr

/-- Whether an error is of the forbidden class (`ForbiddenError` in
`../error`): quota exceeded, invalid or expired link, access denied. -/
def HydroError.isForbidden : HydroError → Bool
  | .ForbiddenError _ => true
  | _ => false

/-- The privileges `misc.ts` consults (`PRIV` from `../model/builtin`). -/
inductive PRIV where
  | PRIV_USER_PROFILE : PRIV
  | PRIV_CREATE_FILE : PRIV
  | PRIV_UNLIMITED_QUOTA : PRIV
  | PRIV_EDIT_SYSTEM : PRIV
deriving DecidableEq, Repr

/-- One entry of a principal's `_files` ledger: the record pushed by
`postUploadFile` is `{ _id: filename, name: filename, size, lastModified,
etag }` (the last three picked from storage metadata). -/
structure FileRecord where
  _id : String
  name : String
  size : Nat
  lastModified : Nat
  etag : String
deriving DecidableEq, Repr

/-- A principal as the handlers see it: integer id, privilege set, and the
`_files` ledger, which in JavaScript may be `undefined` (modelled as
`none`). -/
structure User where
  _id : Nat
  priv : List PRIV
  _files : Option (List FileRecord)
deriving DecidableEq, Repr

/-- `user.hasPriv(p)`: membership in the principal's privilege set. -/
def User.hasPriv (u : User) (p : PRIV) : Bool :=
  u.priv.contains p

/-- The uploaded multipart file as the handler sees it: its on-disk byte
size (`statSync(file.filepath).size`) and its client-supplied original
name (`""` when absent, matching a falsy `originalFilename`). -/
structure UploadFile where
  size : Nat
  originalFilename : String
deriving DecidableEq, Repr

/-- Object metadata returned by `storage.getMeta` (the fields `pick`ed by
the upload workflow). -/
structure FileMeta where
  size : Nat
  lastModified : Nat
  etag : String
deriving DecidableEq, Repr

/-- JavaScript `String.prototype.includes`: substring containment. -/
def strIncludes (s pat : String) : Bool :=
  decide (List.IsInfix pat.toList s.toList)

/-- `this.checkPriv(p)`: throws a permission error unless the principal
holds the privilege. -/
def checkPriv (u : User) (p : PRIV) : Except HydroError Unit :=
  if u.hasPriv p then .ok () else .error .PermissionError

/-! ## LinkSigner / StorageHandler

`StorageHandler.get` recomputes `md5(`{target}/{expire}/{secret}`)` and
compares it with the presented `secret` parameter.  The MD5 function lives
in `../utils` (an external collaborator here), so the embedding abstracts
it as a parameter `hash : String → String`; every theorem below holds for
an arbitrary hash, because the endpoint only ever compares its output for
string equality. -/

/-- The spec's `LinkSigner.mint`: the fingerprint for `(target, expire)`
is the keyed hash of `target ++ "/" ++ expire ++ "/" ++ serverSecret` —
exactly the `expected` value `StorageHandler.get` recomputes
(`md5(`${target}/${expire}/${builtinConfig.file.secret}`)`). -/
def mint (hash : String → String) (fileSecret target : String) (expire : Nat) : String :=
  hash (target ++ "/" ++ toString expire ++ "/" ++ fileSecret)

/-- `StorageHandler.get`, line by line: compute the expected fingerprint,
reject expired links (`expire < Date.now()`), reject a mismatched secret,
then serve the object (`storage.get target`; the served bytes are
abstracted as the target path handed to the storage collaborator; content
type and disposition are response decoration on external data and are not
modelled). `now` stands for `Date.now()`. -/
def StorageHandler.get (hash : String → String) (fileSecret : String) (now : Nat)
    (target filename : String) (expire : Nat) (secret : String) :
    Except HydroError String :=
  let expected := mint hash fileSecret target expire
  if expire < now then .error (.ForbiddenError "Link expired")
  else if secret ≠ expected then .error (.ForbiddenError "Invalid secret")
  else .ok target

/-! ## FilesHandler — view, upload, delete

`postUploadFile` takes the configuration limits (`system.get('limit.user_files')`
and `system.get('limit.user_files_size')`), the principal, the `filename`
parameter (`""` when absent, it is an optional `Types.Name`), the multipart
file (`none` when missing), the `String.random(16)` fallback name, and the
result of `storage.getMeta` after the put (`none` models a missing metadata
response).  The `.ok` value is the new `_files` list handed to
`user.setById` — on every `.error` path the handler throws before that
write, so the ledger is untouched. -/

/-- `FilesHandler.get`: `if (!this.user._files?.length) this.checkPriv(PRIV_CREATE_FILE)`,
then render the (externally sorted) file list. -/
def FilesHandler.get (u : User) : Except HydroError (Option (List FileRecord)) :=
  if (u._files.getD []).length = 0 then
    match checkPriv u .PRIV_CREATE_FILE with
    | .error e => .error e
    | .ok _ => .ok u._files
  else .ok u._files

/-- `FilesHandler.postUploadFile`, statement by statement in source order:
privilege check; count-quota check (`?.length || 0`, `>=`, bypassed by
`PRIV_UNLIMITED_QUOTA`); missing-file validation; size-quota check on the
prospective total (existing sum plus `statSync` size, `>=`, same bypass);
filename derivation (`originalFilename || String.random(16)` when the
parameter is falsy); bad-filename validation (`includes('/')` or
`includes('..')`); duplicate check (`this.user._files.filter(...)`
unguarded — a JS `TypeError` when `_files` is `undefined`); then the
`storage.put`, the `getMeta` (parameter `meta`), the `if (!meta) throw new
Error('Upload failed')`, and the ledger append. -/
def FilesHandler.postUploadFile (countLimit byteLimit : Nat) (u : User)
    (filenameParam : String) (file : Option UploadFile) (randName : String)
    (meta : Option FileMeta) : Except HydroError (List FileRecord) :=
  if u.hasPriv .PRIV_CREATE_FILE = false then .error .PermissionError
  else if (u._files.getD []).length ≥ countLimit ∧
          u.hasPriv .PRIV_UNLIMITED_QUOTA = false then
    .error (.ForbiddenError "File limit exceeded.")
  else match file with
  | none => .error (.ValidationError "file" "")
  | some f =>
    let size := ((u._files.getD []).map FileRecord.size).sum + f.size
    if size ≥ byteLimit ∧ u.hasPriv .PRIV_UNLIMITED_QUOTA = false then
      .error (.ForbiddenError "File size limit exceeded.")
    else
      let filename :=
        if filenameParam = "" then
          (if f.originalFilename = "" then randName else f.originalFilename)
        else filenameParam
      if strIncludes filename "/" = true ∨ strIncludes filename ".." = true then
        .error (.ValidationError "filename" "Bad filename")
      else match u._files with
      | none => .error .TypeError
      | some files =>
        if (files.filter (fun i => i.name = filename)).length ≠ 0 then
          .error (.BadRequestError "file exists")
        else match meta with
        | none => .error (.GenericError "Upload failed")
        | some m =>
          .ok (files ++ [{ _id := filename, name := filename, size := m.size,
                           lastModified := m.lastModified, etag := m.etag }])

/-- `FilesHandler.postDeleteFiles`: the ledger is overwritten with
`this.user._files.filter((i) => !files.includes(i.name))` (unguarded
access, `TypeError` when `_files` is absent); the batch `storage.del`
runs concurrently on the external store and does not affect the ledger. -/
def FilesHandler.postDeleteFiles (u : User) (files : List String) :
    Except HydroError (List FileRecord) :=
  match u._files with
  | none => .error .TypeError
  | some cur => .ok (cur.filter (fun i => !(files.contains i.name)))

/-! ## FSDownloadHandler — download authorization

`targetUser` is the result of `user.getById('system', uid)` on the external
identity store.  The `.ok` value is the storage path the handler resolves
and signs (`user/<uid>/<filename>`); the audit log, metadata lookup and
redirect are effects on external collaborators. -/

/-- `FSDownloadHandler.get`: not-found when the owner does not resolve;
forbidden when the requester is not the owner and the owner lacks
`PRIV_CREATE_FILE`; otherwise the target path is served. -/
def FSDownloadHandler.get (requester : User) (targetUser : Option User)
    (uid : Nat) (filename : String) : Except HydroError String :=
  match targetUser with
  | none => .error (.NotFoundError uid)
  | some tu =>
    if requester._id ≠ uid ∧ tu.hasPriv .PRIV_CREATE_FILE = false then
      .error (.ForbiddenError "Access denied")
    else .ok ("user/" ++ toString uid ++ "/" ++ filename)

/-! ## Concrete fixtures (used by counterexamples and witnesses) -/

/-- A ledger record for the fixtures: `_id = name`, the given size. -/
def exRecord (n : String) (sz : Nat) : FileRecord :=
  { _id := n, name := n, size := sz, lastModified := 0, etag := "e" }

/-- A principal holding `PRIV_CREATE_FILE` (but not unlimited quota) whose
ledger holds one 4-byte file. -/
def exUser4 : User :=
  { _id := 1, priv := [.PRIV_CREATE_FILE], _files := some [exRecord "a.txt" 4] }

/-- A principal holding `PRIV_CREATE_FILE` (but not unlimited quota) whose
ledger holds one 5-byte file. -/
def exUser5 : User :=
  { _id := 1, priv := [.PRIV_CREATE_FILE], _files := some [exRecord "a.txt" 5] }

/-! ## Theorems -/

/-- Helper: the fully successful upload path.  When the privilege holds,
the count and prospective-size totals are strictly below their limits, the
filename parameter is non-empty, contains neither `/` nor `..`, is not
already in the ledger, and metadata comes back, `postUploadFile` returns
the old ledger with the new record appended. -/
theorem postUploadFile_ok (countLimit byteLimit : Nat) (u : User)
    (l : List FileRecord) (fname rand : String) (f : UploadFile) (m : FileMeta)
    (hpriv : u.hasPriv .PRIV_CREATE_FILE = true)
    (hfiles : u._files = some l)
    (hcount : l.length < countLimit)
    (hsize : (l.map FileRecord.size).sum + f.size < byteLimit)
    (hfname : fname ≠ "")
    (hslash : strIncludes fname "/" = false)
    (hdots : strIncludes fname ".." = false)
    (hdup : ∀ i ∈ l, i.name ≠ fname) :
    FilesHandler.postUploadFile countLimit byteLimit u fname (some f) rand (some m)
      = .ok (l ++ [{ _id := fname, name := fname, size := m.size,
                     lastModified := m.lastModified, etag := m.etag }]) := by
  unfold FilesHandler.postUploadFile
  rw [hfiles]
  have hc : ¬ ((some l).getD []).length ≥ countLimit := by
    simpa using Nat.not_le.mpr hcount
  have hs : ¬ (((some l).getD []).map FileRecord.size).sum + f.size ≥ byteLimit := by
    simpa using Nat.not_le.mpr hsize
  have hd : (l.filter fun i => i.name = fname) = [] := by
    rw [List.filter_eq_nil_iff]
    intro a ha
    simpa using hdup a ha
  simp [hc, hs, hfname, hslash, hdots, hd, hpriv]
  rw [if_neg (by rintro ⟨h, -⟩; omega), if_neg (by rintro ⟨h, -⟩; omega)]

/-- C3 counterexample: `exUser4` (4 bytes used, no unlimited quota) uploads
a 6-byte file under `byteLimit = 10`: the prospective aggregate is exactly
`byteLimit`, yet the upload is rejected with the size quota error — the
source checks `size >= limit.user_files_size`, so reaching the limit
exactly already fails, contradicting the claim that it succeeds. -/
theorem upload_at_exact_byte_limit_rejected :
    FilesHandler.postUploadFile 10 10 exUser4 "b.txt"
        (some { size := 6, originalFilename := "" }) "r"
        (some { size := 6, lastModified := 0, etag := "e2" })
      = .error (.ForbiddenError "File size limit exceeded.") := rfl

/-- C3 (amended): for a principal lacking unlimited quota (with the
privilege, a fresh valid filename, metadata present and the count quota
clear), an upload whose prospective aggregate (existing sum plus the new
object's size) stays strictly below `byteLimit` succeeds, and one whose
prospective aggregate reaches `byteLimit` or more — in particular exactly
`byteLimit`, and `byteLimit + 1` — fails with the size quota error: the
boundary is reject-on-reaching-or-exceeding, not reject-strictly-over. -/
theorem upload_size_boundary (countLimit byteLimit : Nat) (u : User)
    (l : List FileRecord) (fname rand : String) (f : UploadFile) (m : FileMeta)
    (hpriv : u.hasPriv .PRIV_CREATE_FILE = true)
    (hunl : u.hasPriv .PRIV_UNLIMITED_QUOTA = false)
    (hfiles : u._files = some l)
    (hcount : l.length < countLimit)
    (hfname : fname ≠ "")
    (hslash : strIncludes fname "/" = false)
    (hdots : strIncludes fname ".." = false)
    (hdup : ∀ i ∈ l, i.name ≠ fname) :
    ((l.map FileRecord.size).sum + f.size < byteLimit →
      FilesHandler.postUploadFile countLimit byteLimit u fname (some f) rand (some m)
        = .ok (l ++ [{ _id := fname, name := fname, size := m.size,
                       lastModified := m.lastModified, etag := m.etag }])) ∧
    ((l.map FileRecord.size).sum + f.size ≥ byteLimit →
      FilesHandler.postUploadFile countLimit byteLimit u fname (some f) rand (some m)
        = .error (.ForbiddenError "File size limit exceeded.")) := by
  constructor
  · intro hsize
    exact postUploadFile_ok countLimit byteLimit u l fname rand f m
      hpriv hfiles hcount hsize hfname hslash hdots hdup
  · intro hge
    unfold FilesHandler.postUploadFile
    rw [hfiles]
    simp only [Option.getD_some]
    rw [if_neg (by simp [hpriv]), if_neg (by rintro ⟨hgt, -⟩; omega)]
    simp [hunl]
    omega

/-- C3 witness: with `byteLimit = 10` and 4 bytes used, a 5-byte upload
(prospective total 9) succeeds and a 6-byte upload (prospective total 10)
fails. -/
theorem upload_size_boundary_witness :
    FilesHandler.postUploadFile 10 10 exUser4 "b.txt"
        (some { size := 5, originalFilename := "" }) "r"
        (some { size := 5, lastModified := 0, etag := "e2" })
      = .ok [exRecord "a.txt" 4,
             { _id := "b.txt", name := "b.txt", size := 5,
               lastModified := 0, etag := "e2" }] ∧
    FilesHandler.postUploadFile 10 10 exUser4 "b.txt"
        (some { size := 6, originalFilename := "" }) "r"
        (some { size := 6, lastModified := 0, etag := "e2" })
      = .error (.ForbiddenError "File size limit exceeded.") :=
  ⟨(upload_size_boundary 10 10 exUser4 [exRecord "a.txt" 4] "b.txt" "r"
      { size := 5, originalFilename := "" } { size := 5, lastModified := 0, etag := "e2" }
      (by decide) (by decide) rfl (by decide) (by decide) (by decide) (by decide)
      (by decide)).1 (by decide),
   (upload_size_boundary 10 10 exUser4 [exRecord "a.txt" 4] "b.txt" "r"
      { size := 6, originalFilename := "" } { size := 6, lastModified := 0, etag := "e2" }
      (by decide) (by decide) rfl (by decide) (by decide) (by decide) (by decide)
      (by decide)).2 (by decide)⟩

/-- C4 counterexample: `exUser5` (5 bytes used, no unlimited quota) uploads
a file named `"a/b"` under `byteLimit = 5`: although the filename contains
`/`, the upload fails with the size quota error, not the invalid-filename
validation error — the aggregate-size check runs before filename
validation in the source, contradicting the claimed ordering. -/
theorem bad_filename_rejected_as_quota :
    FilesHandler.postUploadFile 10 5 exUser5 "a/b"
        (some { size := 0, originalFilename := "" }) "r" none
      = .error (.ForbiddenError "File size limit exceeded.") := rfl

/-- C4 (amended): in the upload workflow the count and aggregate-size
quota checks run before filename validation; whenever neither quota check
fires (the principal is within both limits or holds unlimited quota), an
upload whose non-empty filename parameter contains `/` or `..` fails with
the invalid-filename validation error — but when the size quota check
fires for a principal lacking unlimited quota, such an upload fails with
the quota error instead, so the validation error is not produced
"regardless of the principal's quota state". -/
theorem upload_bad_filename_after_quota (countLimit byteLimit : Nat)
    (u : User) (fname rand : String) (f : UploadFile) (meta : Option FileMeta)
    (hpriv : u.hasPriv .PRIV_CREATE_FILE = true)
    (hcount : ¬((u._files.getD []).length ≥ countLimit ∧
                u.hasPriv .PRIV_UNLIMITED_QUOTA = false))
    (hsize : ¬(((u._files.getD []).map FileRecord.size).sum + f.size ≥ byteLimit ∧
               u.hasPriv .PRIV_UNLIMITED_QUOTA = false))
    (hfname : fname ≠ "")
    (hbad : strIncludes fname "/" = true ∨ strIncludes fname ".." = true) :
    FilesHandler.postUploadFile countLimit byteLimit u fname (some f) rand meta
      = .error (.ValidationError "filename" "Bad filename") := by
  unfold FilesHandler.postUploadFile
  rw [if_neg (by simp [hpriv]), if_neg hcount]
  simp only []
  rw [if_neg hsize, if_neg hfname, if_pos hbad]

/-- C4 witness: a within-quota principal uploading to the name `"a/b"` is
rejected with the invalid-filename validation error. -/
theorem upload_bad_filename_after_quota_witness :
    FilesHandler.postUploadFile 10 100 exUser5 "a/b"
        (some { size := 0, originalFilename := "" }) "r" none
      = .error (.ValidationError "filename" "Bad filename") :=
  upload_bad_filename_after_quota 10 100 exUser5 "a/b" "r"
    { size := 0, originalFilename := "" } none (by decide) (by decide)
    (by decide) (by decide) (by decide)

/-- C5: a principal lacking unlimited quota whose current file count
already equals `countLimit` has any further upload rejected with the
count quota error, even when the new object has size 0 — a zero-length
upload still consumes one unit of count quota, and the count check fires
before the file is even examined. -/
theorem upload_count_at_limit_rejected (countLimit byteLimit : Nat)
    (u : User) (fname rand : String) (f : UploadFile) (meta : Option FileMeta)
    (hpriv : u.hasPriv .PRIV_CREATE_FILE = true)
    (hunl : u.hasPriv .PRIV_UNLIMITED_QUOTA = false)
    (hcount : (u._files.getD []).length = countLimit)
    (hzero : f.size = 0) :
    FilesHandler.postUploadFile countLimit byteLimit u fname (some f) rand meta
      = .error (.ForbiddenError "File limit exceeded.") := by
  unfold FilesHandler.postUploadFile
  rw [if_neg (by simp [hpriv]), if_pos ⟨by omega, hunl⟩]

/-- C5 witness: with `countLimit = 1` and one file in the ledger, a
zero-byte upload is rejected with the count quota error. -/
theorem upload_count_at_limit_rejected_witness :
    FilesHandler.postUploadFile 1 100 exUser4 "b.txt"
        (some { size := 0, originalFilename := "" }) "r" none
      = .error (.ForbiddenError "File limit exceeded.") :=
  upload_count_at_limit_rejected 1 100 exUser4 "b.txt" "r"
    { size := 0, originalFilename := "" } none (by decide) (by decide)
    (by decide) (by decide)

/-- C1: for every target and expiry not yet expired, presenting the
fingerprint `mint hash fileSecret target expire` — the keyed hash of
`target ++ "/" ++ expire ++ "/" ++ serverSecret` — to `StorageHandler.get`
passes both checks and the object is served, while presenting any other
fingerprint string for the same `(target, expire)` is rejected: verify of
mint round-trips to true, any differing fingerprint verifies false. -/
theorem mint_verify_roundtrip (hash : String → String) (fileSecret : String)
    (now : Nat) (target filename : String) (expire : Nat) (fp : String)
    (hnow : ¬ expire < now) (hfp : fp ≠ mint hash fileSecret target expire) :
    StorageHandler.get hash fileSecret now target filename expire
        (mint hash fileSecret target expire) = .ok target ∧
    StorageHandler.get hash fileSecret now target filename expire fp
        = .error (.ForbiddenError "Invalid secret") := by
  unfold StorageHandler.get
  simp only [if_neg hnow]
  constructor
  · simp
  · simp [hfp]

/-- C1 witness: a concrete round-trip at `target = "f.txt"`, `expire = 200`,
`now = 100`, with a concrete hash. -/
theorem mint_verify_roundtrip_witness :
    StorageHandler.get (fun s => s ++ "#") "sec" 100 "f.txt" "" 200
        (mint (fun s => s ++ "#") "sec" "f.txt" 200) = .ok "f.txt" ∧
    StorageHandler.get (fun s => s ++ "#") "sec" 100 "f.txt" "" 200 "bogus"
        = .error (.ForbiddenError "Invalid secret") :=
  mint_verify_roundtrip (fun s => s ++ "#") "sec" 100 "f.txt" "" 200 "bogus"
    (by decide) (by decide)

/-- C2: a request to `StorageHandler.get` with `expire < now` is rejected
with the expired-link error no matter what fingerprint is presented — in
particular the correctly recomputed one — because the expiry comparison
precedes the fingerprint comparison; and every rejection of the endpoint,
expired or mismatched, is of the same forbidden error class. -/
theorem storage_expired_precedes_secret (hash : String → String)
    (fileSecret : String) (now : Nat) (target filename : String)
    (expire : Nat) (secret : String) (hexp : expire < now) :
    StorageHandler.get hash fileSecret now target filename expire secret
        = .error (.ForbiddenError "Link expired") ∧
    StorageHandler.get hash fileSecret now target filename expire
        (mint hash fileSecret target expire)
        = .error (.ForbiddenError "Link expired") ∧
    (∀ (n : Nat) (s : String) (e : HydroError),
      StorageHandler.get hash fileSecret n target filename expire s = .error e →
      e.isForbidden = true) := by
  refine ⟨?_, ?_, ?_⟩
  · unfold StorageHandler.get
    simp [hexp]
  · unfold StorageHandler.get
    simp [hexp]
  · intro n s e h
    unfold StorageHandler.get at h
    by_cases h1 : expire < n
    · simp [h1] at h
      simp [← h, HydroError.isForbidden]
    · by_cases h2 : s ≠ mint hash fileSecret target expire
      · simp [h1, h2] at h
        simp [← h, HydroError.isForbidden]
      · simp [h1, h2] at h

/-- C2 witness: an expired request (`expire = 50 < now = 100`) carrying the
correct fingerprint is rejected with the expired-link error. -/
theorem storage_expired_precedes_secret_witness :
    StorageHandler.get (fun s => s ++ "#") "sec" 100 "f.txt" "" 50
        (mint (fun s => s ++ "#") "sec" "f.txt" 50)
        = .error (.ForbiddenError "Link expired") :=
  (storage_expired_precedes_secret (fun s => s ++ "#") "sec" 100 "f.txt" "" 50
    (mint (fun s => s ++ "#") "sec" "f.txt" 50) (by decide)).1

/-- C6: the download authorizer raises not-found when the owning principal
does not resolve in the identity store; otherwise access is granted
exactly when the requester's id equals the owner's id or the owning
principal itself holds `PRIV_CREATE_FILE`, and is denied with the
forbidden error otherwise. -/
theorem download_owner_or_privileged (req : User) (uid : Nat) (fn : String) :
    FSDownloadHandler.get req none uid fn = .error (.NotFoundError uid) ∧
    ∀ tu : User, FSDownloadHandler.get req (some tu) uid fn =
      (if req._id = uid ∨ tu.hasPriv .PRIV_CREATE_FILE = true
       then .ok ("user/" ++ toString uid ++ "/" ++ fn)
       else .error (.ForbiddenError "Access denied")) := by
  refine ⟨rfl, ?_⟩
  intro tu
  unfold FSDownloadHandler.get
  by_cases h1 : req._id = uid
  · simp [h1]
  · cases h2 : tu.hasPriv .PRIV_CREATE_FILE
    · simp [h1, h2]
    · simp [h1, h2]

/-- C7: when metadata retrieval after the storage put returns nothing, the
upload fails with the generic internal error (`new Error('Upload failed')`)
before any ledger mutation: the handler never reaches the `_files.push`
and `user.setById` statements, so no ledger value is produced — the
result is never a successful ledger write. -/
theorem upload_meta_missing_fails (countLimit byteLimit : Nat) (u : User)
    (l : List FileRecord) (fname rand : String) (f : UploadFile)
    (hpriv : u.hasPriv .PRIV_CREATE_FILE = true)
    (hfiles : u._files = some l)
    (hcount : l.length < countLimit)
    (hsize : (l.map FileRecord.size).sum + f.size < byteLimit)
    (hfname : fname ≠ "")
    (hslash : strIncludes fname "/" = false)
    (hdots : strIncludes fname ".." = false)
    (hdup : ∀ i ∈ l, i.name ≠ fname) :
    FilesHandler.postUploadFile countLimit byteLimit u fname (some f) rand none
      = .error (.GenericError "Upload failed") ∧
    ∀ led : List FileRecord,
      FilesHandler.postUploadFile countLimit byteLimit u fname (some f) rand none
        ≠ .ok led := by
  have key : FilesHandler.postUploadFile countLimit byteLimit u fname (some f) rand none
      = .error (.GenericError "Upload failed") := by
    unfold FilesHandler.postUploadFile
    rw [hfiles]
    have hd : (l.filter fun i => i.name = fname) = [] := by
      rw [List.filter_eq_nil_iff]
      intro a ha
      simpa using hdup a ha
    simp [hfname, hslash, hdots, hd, hpriv]
    rw [if_neg (by rintro ⟨h, -⟩; omega), if_neg (by rintro ⟨h, -⟩; omega)]
  exact ⟨key, fun led h => by rw [key] at h; cases h⟩

/-- C7 witness: a within-quota upload of a fresh valid filename whose
metadata lookup returns nothing fails with the generic error. -/
theorem upload_meta_missing_fails_witness :
    FilesHandler.postUploadFile 10 100 exUser4 "b.txt"
        (some { size := 1, originalFilename := "" }) "r" none
      = .error (.GenericError "Upload failed") :=
  (upload_meta_missing_fails 10 100 exUser4 [exRecord "a.txt" 4] "b.txt" "r"
    { size := 1, originalFilename := "" } (by decide) rfl (by decide) (by decide)
    (by decide) (by decide) (by decide) (by decide)).1

/-- C8: for a principal whose ledger does not yet hold `fname`, a
successful upload of `fname` (all checks pass, metadata present) followed
immediately by a delete of the same filename returns the ledger to
exactly its prior list — hence to its prior file count and prior
aggregate size. -/
theorem upload_then_delete_roundtrip (countLimit byteLimit : Nat) (u : User)
    (l : List FileRecord) (fname rand : String) (f : UploadFile) (m : FileMeta)
    (hpriv : u.hasPriv .PRIV_CREATE_FILE = true)
    (hfiles : u._files = some l)
    (hcount : l.length < countLimit)
    (hsize : (l.map FileRecord.size).sum + f.size < byteLimit)
    (hfname : fname ≠ "")
    (hslash : strIncludes fname "/" = false)
    (hdots : strIncludes fname ".." = false)
    (hdup : ∀ i ∈ l, i.name ≠ fname) :
    FilesHandler.postUploadFile countLimit byteLimit u fname (some f) rand (some m)
      = .ok (l ++ [{ _id := fname, name := fname, size := m.size,
                     lastModified := m.lastModified, etag := m.etag }]) ∧
    FilesHandler.postDeleteFiles
        { u with _files := some (l ++ [{ _id := fname, name := fname, size := m.size,
                                         lastModified := m.lastModified, etag := m.etag }]) }
        [fname]
      = .ok l := by
  refine ⟨postUploadFile_ok countLimit byteLimit u l fname rand f m
    hpriv hfiles hcount hsize hfname hslash hdots hdup, ?_⟩
  unfold FilesHandler.postDeleteFiles
  have h1 : (l.filter fun i => !([fname].contains i.name)) = l := by
    rw [List.filter_eq_self]
    intro a ha
    simp [hdup a ha]
  simp [List.filter_append, h1]
  exact hdup

/-- C8 witness: uploading a fresh 1-byte `b.txt` and deleting it restores
`exUser4`'s one-record ledger. -/
theorem upload_then_delete_roundtrip_witness :
    FilesHandler.postUploadFile 10 100 exUser4 "b.txt"
        (some { size := 1, originalFilename := "" }) "r"
        (some { size := 1, lastModified := 0, etag := "e2" })
      = .ok [exRecord "a.txt" 4,
             { _id := "b.txt", name := "b.txt", size := 1,
               lastModified := 0, etag := "e2" }] ∧
    FilesHandler.postDeleteFiles
        { exUser4 with
            _files := some [exRecord "a.txt" 4,
                            { _id := "b.txt", name := "b.txt", size := 1,
                              lastModified := 0, etag := "e2" }] }
        ["b.txt"]
      = .ok [exRecord "a.txt" 4] :=
  upload_then_delete_roundtrip 10 100 exUser4 [exRecord "a.txt" 4] "b.txt" "r"
    { size := 1, originalFilename := "" } { size := 1, lastModified := 0, etag := "e2" }
    (by decide) rfl (by decide) (by decide) (by decide) (by decide) (by decide)
    (by decide)

/-- C9: the delete workflow rewrites the ledger to exactly the prior list
with the records whose names appear in the request removed: the result is
a sublist of the prior ledger (order and contents of survivors
preserved), a record survives exactly when its name is not in the
request, and a request made only of names matching no record leaves the
ledger identical — names matching nothing are silently ignored and the
ledger update never errors. -/
theorem delete_filters_ledger (u : User) (l : List FileRecord)
    (files : List String) (h : u._files = some l) :
    ∃ r, FilesHandler.postDeleteFiles u files = .ok r ∧
      List.Sublist r l ∧
      (∀ i, i ∈ r ↔ i ∈ l ∧ files.contains i.name = false) ∧
      ((∀ i ∈ l, files.contains i.name = false) → r = l) := by
  refine ⟨l.filter (fun i => !(files.contains i.name)), ?_, ?_, ?_, ?_⟩
  · unfold FilesHandler.postDeleteFiles
    rw [h]
  · exact List.filter_sublist l
  · intro i
    simp [List.mem_filter]
  · intro hall
    exact List.filter_eq_self.mpr (fun a ha => by rw [hall a ha]; rfl)

/-- C9 witness: deleting `["a.txt", "zzz"]` from a one-record ledger —
`zzz` matches nothing and is ignored, `a.txt` is removed. -/
theorem delete_filters_ledger_witness :
    ∃ r, FilesHandler.postDeleteFiles exUser5 ["a.txt", "zzz"] = .ok r ∧
      List.Sublist r [exRecord "a.txt" 5] ∧
      (∀ i, i ∈ r ↔ i ∈ [exRecord "a.txt" 5] ∧
        (["a.txt", "zzz"] : List String).contains i.name = false) ∧
      ((∀ i ∈ [exRecord "a.txt" 5],
          (["a.txt", "zzz"] : List String).contains i.name = false) →
        r = [exRecord "a.txt" 5]) :=
  delete_filters_ledger exUser5 [exRecord "a.txt" 5] ["a.txt", "zzz"] rfl

/-- C10: viewing the file list succeeds exactly when the principal's
`_files` list is non-empty (present with at least one record) or the
principal holds `PRIV_CREATE_FILE`; the only other outcome is the
permission error — so the privilege is required only for principals
whose list is empty or absent, and an owner of at least one record can
always view its list. -/
theorem filesGet_priv_only_when_empty (u : User) :
    (FilesHandler.get u = .ok u._files ↔
      ((u._files.getD []).length ≠ 0 ∨ u.hasPriv .PRIV_CREATE_FILE = true)) ∧
    (FilesHandler.get u = .ok u._files ∨
     FilesHandler.get u = .error .PermissionError) := by
  unfold FilesHandler.get checkPriv
  by_cases h : (u._files.getD []).length = 0
  · cases hp : u.hasPriv .PRIV_CREATE_FILE
    · simp [h, hp]
    · simp [h, hp]
  · simp [h]

end Hydro
